import Mathlib

/-!
Shallow embedding of `src/app.py` (image-to-story HTTP façade).

The program has two stateless FastAPI handlers:
  * `POST /upload-url` (`upload_url`)  — issues a pre-signed S3 PUT URL;
  * `GET /generate`    (`generate_story`) — issues a pre-signed S3 GET URL and
    submits one request to the Anthropic messages API.

External services (boto3 S3 client, Anthropic client) are modelled as function
parameters (`Services`) returning `Except String _` (an exception carries its
textual message).  Each handler is embedded as a pure function returning the
ordered trace of outbound service calls together with the handler outcome, so
that claims about which calls are (not) made before a failure are statements
about the trace.

`temperature` is a Python float used only in comparisons with the literals
0.0 and 1.0 and passed through verbatim; it is modelled as `ℚ`, on which those
comparisons are exact.

FastAPI evaluates the declared query-parameter constraint
`Query(0.8, ge=0.0, le=1.0)` before the handler body runs; a violation aborts
the request at the framework boundary.  This is modelled by the wrapper
`generate_endpoint`, whose rejection outcome is `validationRejected` (the
repository's code assigns no status code to it).  An exception that escapes
the handler body (there is no `try` around the S3 presign call in
`generate_story`) is the outcome `uncaught`.
-/

namespace ImageToStory

/-- `class UploadReq(BaseModel)`: request body of `POST /upload-url`. -/
structure UploadReq where
  filename : String
  content_type : String
deriving DecidableEq, Repr

/-- Response body of `POST /upload-url`: `{"put_url": ..., "key": ...}`. -/
structure UploadResp where
  put_url : String
  key : String
deriving DecidableEq, Repr

/-- Query parameters of `GET /generate` (after FastAPI fills defaults). -/
structure GenerateQuery where
  key : String
  style : String
  length_hint : String
  audience : String
  temperature : ℚ
deriving DecidableEq, Repr

/-- Default `style` query parameter. -/
def defaultStyle : String := "literary, lyrical, warm, cohesive"

/-- Default `length_hint` query parameter. -/
def defaultLengthHint : String := "700-900 words"

/-- Default `audience` query parameter. -/
def defaultAudience : String := "general"

/-- Default `temperature` query parameter (0.8). -/
def defaultTemperature : ℚ := 4/5

/-- Response body of `GET /generate`: `{"story": ...}`. -/
structure GenerateResp where
  story : String
deriving DecidableEq, Repr

/-- The `Params` dict passed to `s3.generate_presigned_url`:
`{"Bucket": ..., "Key": ...}`, with `"ContentType"` present only for
`put_object`. -/
structure PresignParams where
  Bucket : String
  Key : String
  ContentType : Option String
deriving DecidableEq, Repr

/-- One content part of the user message sent to the Anthropic API:
`{"type": "text", "text": ...}` or
`{"type": "image", "source": {"type": "url", "url": ...}}`. -/
inductive ReqContent where
  | text (t : String)
  | image (url : String)
deriving DecidableEq, Repr

/-- One message of the Anthropic request (`{"role": ..., "content": [...]}`). -/
structure ReqMessage where
  role : String
  content : List ReqContent
deriving DecidableEq, Repr

/-- The argument record of `anthropic.messages.create(...)`. -/
structure AnthropicRequest where
  model : String
  max_tokens : Nat
  temperature : ℚ
  system : String
  messages : List ReqMessage
deriving DecidableEq, Repr

/-- One block of `resp.content`.  `ptype` models `getattr(part, "type", "")`
(the empty string when the block carries no `type` attribute); `text` is the
block's `text` attribute, read only when `ptype = "text"`. -/
structure RespPart where
  ptype : String
  text : String
deriving DecidableEq, Repr

/-- The response object of `anthropic.messages.create`, reduced to the field
the handler reads. -/
structure AnthropicResponse where
  content : List RespPart
deriving DecidableEq, Repr

/-- One outbound call to an external service, recorded with its arguments. -/
inductive ServiceCall where
  | presign (operation : String) (params : PresignParams) (expiresIn : Nat)
  | createMessage (req : AnthropicRequest)
deriving DecidableEq, Repr

/-- Behaviour of the two external collaborators: `s3.generate_presigned_url`
and `anthropic.messages.create`.  `Except.error m` models the call raising an
exception whose textual message is `m`. -/
structure Services where
  presignResult : String → PresignParams → Nat → Except String String
  createResult : AnthropicRequest → Except String AnthropicResponse

/-- Outcome of one request, as seen at the HTTP boundary. -/
inductive Outcome (α : Type) where
  /-- Normal `return`: HTTP 200 with the given body. -/
  | ok (body : α)
  /-- `raise HTTPException(status, detail)` from the handler body. -/
  | httpError (status : Nat) (detail : String)
  /-- The framework rejected the request while validating declared query
  parameters; the handler body never ran. -/
  | validationRejected
  /-- An exception escaped the handler body uncaught. -/
  | uncaught (message : String)
deriving DecidableEq, Repr

/-- The HTTP status code assigned by the repository's own code: 200 for a
normal return, the explicit status of a raised `HTTPException`, and none for
outcomes whose status is chosen by the framework. -/
def statusOf {α : Type} : Outcome α → Option Nat
  | .ok _ => some 200
  | .httpError s _ => some s
  | _ => none

/-- Process configuration read from the environment at startup.
`bucket` is `os.getenv("S3_BUCKET")`; `maxTokensEnv` is
`os.getenv("MAX_TOKENS")`; `max_tokens` is the integer the process computed
from it at startup (`MAX_TOKENS` below). -/
structure Config where
  bucket : Option String
  model : String
  maxTokensEnv : Option String
  max_tokens : Nat
deriving Repr

/-- `MAX_TOKENS = int(os.getenv("MAX_TOKENS", "1200"))`: the value is parsed
from the environment variable, defaulting to the string `"1200"`; `none`
models `int(...)` raising at startup on a non-numeric string. -/
def MAX_TOKENS (envVal : Option String) : Option Nat :=
  (envVal.getD "1200").toNat?

/-- `if not BUCKET` in Python is true when `BUCKET` is `None` or the empty
string; the handler proceeds exactly when the bucket is a non-empty string. -/
def bucketConfigured (cfg : Config) : Bool :=
  match cfg.bucket with
  | none => false
  | some s => !s.isEmpty

/-- The constant `system_prompt` string of `generate_story`. -/
def system_prompt : String :=
  "You are an award-winning author with an eye for evocative detail. " ++
  "Write a cohesive short story inspired by the image. Favor scene, character, " ++
  "and subtle emotional arc over object listing. Show, don\x27t tell."

/-- The interpolated `user_text` f-string of `generate_story`. -/
def user_text (style length_hint audience : String) : String :=
  "Write a " ++ length_hint ++ " story inspired by this image for a(n) " ++
  audience ++ " audience.\n" ++
  "Tone/style: " ++ style ++ ". Avoid bullet points or captions. Keep the narrative unified."

/-- The argument record of the single `anthropic.messages.create` call made by
`generate_story`, given the pre-signed GET URL `get_url`. -/
def anthropicReq (cfg : Config) (q : GenerateQuery) (get_url : String) :
    AnthropicRequest :=
  { model := cfg.model
    max_tokens := cfg.max_tokens
    temperature := q.temperature
    system := system_prompt
    messages := [⟨"user",
      [.text (user_text q.style q.length_hint q.audience), .image get_url]⟩] }

/-- Line 83: `"".join(part.text for part in resp.content if
getattr(part, "type", "") == "text")`. -/
def storyOf (parts : List RespPart) : String :=
  String.join ((parts.filter (fun p => p.ptype == "text")).map (fun p => p.text))

/-- The `POST /upload-url` handler (`upload_url`, lines 29–39), returning the
trace of outbound service calls and the outcome. -/
def upload_url (cfg : Config) (svc : Services) (req : UploadReq) :
    List ServiceCall × Outcome UploadResp :=
  match cfg.bucket with
  | none => ([], .httpError 500 "S3_BUCKET not configured")
  | some b =>
    if b.isEmpty then ([], .httpError 500 "S3_BUCKET not configured")
    else
      -- key = f"uploads/{req.filename}"
      -- ExpiresIn = int(timedelta(minutes=10).total_seconds()) = 600
      match svc.presignResult "put_object"
          ⟨b, "uploads/" ++ req.filename, some req.content_type⟩ 600 with
      | .error e =>
        ([.presign "put_object"
            ⟨b, "uploads/" ++ req.filename, some req.content_type⟩ 600],
         .uncaught e)
      | .ok put_url =>
        ([.presign "put_object"
            ⟨b, "uploads/" ++ req.filename, some req.content_type⟩ 600],
         .ok ⟨put_url, "uploads/" ++ req.filename⟩)

/-- The `GET /generate` handler body (`generate_story`, lines 42–86),
returning the trace of outbound service calls and the outcome.  Only the
`anthropic.messages.create` call sits inside the `try`; an exception from the
`s3.generate_presigned_url` call escapes uncaught. -/
def generate_story (cfg : Config) (svc : Services) (q : GenerateQuery) :
    List ServiceCall × Outcome GenerateResp :=
  match cfg.bucket with
  | none => ([], .httpError 500 "S3_BUCKET not configured")
  | some b =>
    if b.isEmpty then ([], .httpError 500 "S3_BUCKET not configured")
    else
      match svc.presignResult "get_object" ⟨b, q.key, none⟩ 300 with
      | .error e =>
        ([.presign "get_object" ⟨b, q.key, none⟩ 300], .uncaught e)
      | .ok get_url =>
        match svc.createResult (anthropicReq cfg q get_url) with
        | .error e =>
          ([.presign "get_object" ⟨b, q.key, none⟩ 300,
            .createMessage (anthropicReq cfg q get_url)],
           .httpError 500 ("Anthropic error: " ++ e))
        | .ok resp =>
          ([.presign "get_object" ⟨b, q.key, none⟩ 300,
            .createMessage (anthropicReq cfg q get_url)],
           .ok ⟨storyOf resp.content⟩)

/-- The `GET /generate` endpoint as deployed: FastAPI validates the declared
constraint `temperature: float = Query(0.8, ge=0.0, le=1.0)` before the
handler body runs. -/
def generate_endpoint (cfg : Config) (svc : Services) (q : GenerateQuery) :
    List ServiceCall × Outcome GenerateResp :=
  if q.temperature < 0 ∨ 1 < q.temperature then ([], .validationRejected)
  else generate_story cfg svc q

/-- Is a trace entry a call to the generation service? -/
def isCreate : ServiceCall → Bool
  | .createMessage _ => true
  | _ => false

/-! ### Concrete instances used by witnesses and counterexamples -/

/-- A configuration with a bucket set and all defaults. -/
def cfgW : Config := ⟨some "pics", "claude-3-5-sonnet-20241022", none, 1200⟩

/-- A configuration whose `S3_BUCKET` variable is unset. -/
def cfgNoBucket : Config := ⟨none, "claude-3-5-sonnet-20241022", none, 1200⟩

/-- A concrete generate query with temperature 1 and default style fields. -/
def qW : GenerateQuery :=
  ⟨"uploads/cat.png", defaultStyle, defaultLengthHint, defaultAudience, 1⟩

/-- A concrete generate query whose temperature 2 is out of range. -/
def qHot : GenerateQuery :=
  ⟨"uploads/cat.png", defaultStyle, defaultLengthHint, defaultAudience, 2⟩

/-- A concrete upload request. -/
def reqW : UploadReq := ⟨"cat.png", "image/png"⟩

/-- Service stub: presigning succeeds, generation returns two text blocks
around one non-text block. -/
def svcOk : Services :=
  ⟨fun _ _ _ => .ok "https://example.com/signed",
   fun _ => .ok ⟨[⟨"text", "Once upon"⟩, ⟨"tool_use", "ignored"⟩,
                  ⟨"text", " a time."⟩]⟩⟩

/-- Service stub whose storage presign call raises `"presign boom"`. -/
def svcPresignErr : Services :=
  ⟨fun _ _ _ => .error "presign boom", fun _ => .ok ⟨[]⟩⟩

/-- Service stub whose generation call raises `"model boom"`. -/
def svcCreateErr : Services :=
  ⟨fun _ _ _ => .ok "https://example.com/signed", fun _ => .error "model boom"⟩

/-! ### Helper lemmas -/

/-- Joining a cons splits into an append. -/
theorem string_join_cons (s : String) (l : List String) :
    String.join (s :: l) = s ++ String.join l := by
  apply String.ext
  simp [String.join_eq, String.data_append]

/-- `storyOf` on a cons: a text-typed block contributes its text, any other
block contributes nothing. -/
theorem storyOf_cons (p : RespPart) (ps : List RespPart) :
    storyOf (p :: ps) =
      (if p.ptype == "text" then p.text else "") ++ storyOf ps := by
  by_cases hp : p.ptype == "text" <;>
    simp [storyOf, hp, string_join_cons, String.empty_append]

/-- When the bucket is a non-empty string, the upload handler's trace is the
single `put_object` presign call with expiry 600, scoped to the derived key
and the request's content type, whatever the service replies. -/
theorem upload_trace (cfg : Config) (svc : Services) (req : UploadReq)
    (b : String) (hb : cfg.bucket = some b) (hne : b.isEmpty = false) :
    (upload_url cfg svc req).1 =
      [.presign "put_object"
        ⟨b, "uploads/" ++ req.filename, some req.content_type⟩ 600] := by
  unfold upload_url
  rw [hb]
  dsimp only
  rw [if_neg (by simp [hne])]
  cases hp : svc.presignResult "put_object"
      ⟨b, "uploads/" ++ req.filename, some req.content_type⟩ 600 <;>
    rfl

/-! ### Claim theorems -/

/-- C1: for every upload request, whatever the configuration and service
behaviour, a successful response's `key` equals `"uploads/" + filename`. -/
theorem upload_key_shape (cfg : Config) (svc : Services) (req : UploadReq)
    (r : UploadResp) (h : (upload_url cfg svc req).2 = .ok r) :
    r.key = "uploads/" ++ req.filename := by
  unfold upload_url at h
  split at h
  · exact absurd h (by simp)
  · split at h
    · exact absurd h (by simp)
    · split at h
      · exact absurd h (by simp)
      · next u heq =>
        have h' : Outcome.ok (⟨u, "uploads/" ++ req.filename⟩ : UploadResp)
            = .ok r := h
        injection h' with h2
        rw [← h2]

/-- Witness for C1 at a concrete configuration, stub and request. -/
theorem upload_key_shape_witness :
    (upload_url cfgW svcOk reqW).2 =
      .ok ⟨"https://example.com/signed", "uploads/cat.png"⟩ ∧
    (UploadResp.mk "https://example.com/signed" "uploads/cat.png").key =
      "uploads/" ++ reqW.filename :=
  ⟨by decide, upload_key_shape cfgW svcOk reqW
    ⟨"https://example.com/signed", "uploads/cat.png"⟩ (by decide)⟩

/-- C4: when no bucket is configured (the variable is unset or empty), both
handlers return the 500 configuration fault with an empty trace: no storage
or generation call is made, for every input. -/
theorem no_bucket_server_fault (cfg : Config) (svc : Services)
    (req : UploadReq) (q : GenerateQuery)
    (hb : bucketConfigured cfg = false) :
    upload_url cfg svc req = ([], .httpError 500 "S3_BUCKET not configured") ∧
    generate_story cfg svc q =
      ([], .httpError 500 "S3_BUCKET not configured") := by
  unfold bucketConfigured at hb
  constructor
  · unfold upload_url
    cases hcb : cfg.bucket with
    | none => rfl
    | some b =>
      rw [hcb] at hb
      simp only [Bool.not_eq_false'] at hb
      dsimp only
      rw [if_pos hb]
  · unfold generate_story
    cases hcb : cfg.bucket with
    | none => rfl
    | some b =>
      rw [hcb] at hb
      simp only [Bool.not_eq_false'] at hb
      dsimp only
      rw [if_pos hb]

/-- Witness for C4 with the bucket variable unset. -/
theorem no_bucket_server_fault_witness :
    bucketConfigured cfgNoBucket = false ∧
    (upload_url cfgNoBucket svcOk reqW =
        ([], .httpError 500 "S3_BUCKET not configured") ∧
      generate_story cfgNoBucket svcOk qW =
        ([], .httpError 500 "S3_BUCKET not configured")) :=
  ⟨rfl, no_bucket_server_fault cfgNoBucket svcOk reqW qW rfl⟩

/-- C5: a temperature strictly below 0 or strictly above 1 is rejected at the
declared-parameter validation boundary, with an empty trace: no storage or
generation call is made. -/
theorem temperature_range_rejects_early (cfg : Config) (svc : Services)
    (q : GenerateQuery) (h : q.temperature < 0 ∨ 1 < q.temperature) :
    generate_endpoint cfg svc q = ([], .validationRejected) := by
  unfold generate_endpoint
  rw [if_pos h]

/-- Witness for C5 at temperature 2. -/
theorem temperature_range_rejects_early_witness :
    (qHot.temperature < 0 ∨ 1 < qHot.temperature) ∧
    generate_endpoint cfgW svcOk qHot = ([], .validationRejected) :=
  ⟨by decide, temperature_range_rejects_early cfgW svcOk qHot (by decide)⟩

/-- C6: with a bucket configured, the generate handler's first outbound call
is the `get_object` presign scoped to exactly the caller's key, with expiry
300 seconds, whatever the services reply. -/
theorem get_presign_scoped (cfg : Config) (svc : Services) (q : GenerateQuery)
    (b : String) (hb : cfg.bucket = some b) (hne : b.isEmpty = false) :
    ∃ rest, (generate_story cfg svc q).1 =
      ServiceCall.presign "get_object" ⟨b, q.key, none⟩ 300 :: rest := by
  unfold generate_story
  rw [hb]
  dsimp only
  rw [if_neg (by simp [hne])]
  cases hp : svc.presignResult "get_object" ⟨b, q.key, none⟩ 300 with
  | error e => exact ⟨[], rfl⟩
  | ok u =>
    dsimp only
    cases hc : svc.createResult (anthropicReq cfg q u) <;> exact ⟨_, rfl⟩

/-- Witness for C6 at a concrete configuration, stub and query. -/
theorem get_presign_scoped_witness :
    cfgW.bucket = some "pics" ∧ "pics".isEmpty = false ∧
    ∃ rest, (generate_story cfgW svcOk qW).1 =
      ServiceCall.presign "get_object" ⟨"pics", qW.key, none⟩ 300 :: rest :=
  ⟨rfl, rfl, get_presign_scoped cfgW svcOk qW "pics" rfl rfl⟩

/-- C7: with a bucket configured, the upload handler's trace is exactly one
`put_object` presign call, scoped to the single derived key and the request's
content type, with expiry 600 seconds. -/
theorem put_presign_scoped (cfg : Config) (svc : Services) (req : UploadReq)
    (b : String) (hb : cfg.bucket = some b) (hne : b.isEmpty = false) :
    (upload_url cfg svc req).1 =
      [ServiceCall.presign "put_object"
        ⟨b, "uploads/" ++ req.filename, some req.content_type⟩ 600] :=
  upload_trace cfg svc req b hb hne

/-- Witness for C7 at a concrete configuration, stub and request. -/
theorem put_presign_scoped_witness :
    cfgW.bucket = some "pics" ∧ "pics".isEmpty = false ∧
    (upload_url cfgW svcOk reqW).1 =
      [ServiceCall.presign "put_object"
        ⟨"pics", "uploads/" ++ reqW.filename, some reqW.content_type⟩ 600] :=
  ⟨rfl, rfl, put_presign_scoped cfgW svcOk reqW "pics" rfl rfl⟩

/-- C10: the empty filename is accepted: with a bucket configured and the
presign call succeeding, the upload handler succeeds and returns the key
`"uploads/"` — no non-emptiness, path or content-type check is made. -/
theorem empty_filename_accepted (cfg : Config) (svc : Services)
    (b ct u : String) (hb : cfg.bucket = some b) (hne : b.isEmpty = false)
    (hp : svc.presignResult "put_object" ⟨b, "uploads/", some ct⟩ 600 =
      .ok u) :
    (upload_url cfg svc ⟨"", ct⟩).2 = .ok ⟨u, "uploads/"⟩ := by
  unfold upload_url
  rw [hb]
  dsimp only
  rw [if_neg (by simp [hne])]
  simp only [String.append_empty]
  rw [hp]

/-- Witness for C10 at a concrete configuration and stub. -/
theorem empty_filename_accepted_witness :
    cfgW.bucket = some "pics" ∧ "pics".isEmpty = false ∧
    svcOk.presignResult "put_object" ⟨"pics", "uploads/", some "image/png"⟩
      600 = .ok "https://example.com/signed" ∧
    (upload_url cfgW svcOk ⟨"", "image/png"⟩).2 =
      .ok ⟨"https://example.com/signed", "uploads/"⟩ :=
  ⟨rfl, rfl, rfl,
    empty_filename_accepted cfgW svcOk "pics" "image/png"
      "https://example.com/signed" rfl rfl rfl⟩

/-- With the `MAX_TOKENS` variable unset, the startup parse yields 1200. -/
theorem MAX_TOKENS_default : MAX_TOKENS none = some 1200 := by
  simp [MAX_TOKENS, String.toNat?, String.isNat, String.foldl_eq,
    String.all_eq]
  decide

/-- Status bound for the upload handler: any status assigned by the
repository's code is 200 or 500. -/
theorem upload_status_bound (cfg : Config) (svc : Services) (req : UploadReq)
    (st : Nat) (h : statusOf (upload_url cfg svc req).2 = some st) :
    st = 200 ∨ st = 500 := by
  unfold upload_url at h
  split at h
  · simp [statusOf] at h; omega
  · split at h
    · simp [statusOf] at h; omega
    · split at h
      · simp [statusOf] at h
      · simp [statusOf] at h; omega

/-- Status bound for the generate endpoint: any status assigned by the
repository's code is 200 or 500. -/
theorem generate_status_bound (cfg : Config) (svc : Services)
    (q : GenerateQuery) (st : Nat)
    (h : statusOf (generate_endpoint cfg svc q).2 = some st) :
    st = 200 ∨ st = 500 := by
  unfold generate_endpoint at h
  split at h
  · simp [statusOf] at h
  · unfold generate_story at h
    split at h
    · simp [statusOf] at h; omega
    · split at h
      · simp [statusOf] at h; omega
      · split at h
        · simp [statusOf] at h
        · split at h <;> simp [statusOf] at h <;> omega

/-- C2: on every success of the generate endpoint, the returned `story`
equals `storyOf` applied to the content blocks the generation service
returned; `storyOf` of no blocks is the empty string, and block by block it
keeps exactly the text-typed blocks, in order, dropping the others. -/
theorem story_concatenation :
    (∀ (cfg : Config) (svc : Services) (q : GenerateQuery) (r : GenerateResp),
        (generate_endpoint cfg svc q).2 = .ok r →
        ∃ req resp, svc.createResult req = .ok resp ∧
          r.story = storyOf resp.content) ∧
    storyOf [] = "" ∧
    ∀ (p : RespPart) (ps : List RespPart),
      storyOf (p :: ps) =
        (if p.ptype == "text" then p.text else "") ++ storyOf ps := by
  refine ⟨?_, rfl, storyOf_cons⟩
  intro cfg svc q r h
  unfold generate_endpoint at h
  split at h
  · exact absurd h (by simp)
  · unfold generate_story at h
    split at h
    · exact absurd h (by simp)
    · split at h
      · exact absurd h (by simp)
      · split at h
        · exact absurd h (by simp)
        · next get_url hp =>
          split at h
          · exact absurd h (by simp)
          · next resp hc =>
            have h' : Outcome.ok (⟨storyOf resp.content⟩ : GenerateResp)
                = .ok r := h
            injection h' with h2
            exact ⟨_, resp, hc, by rw [← h2]⟩

/-- Witness for C2: the stub returns text blocks "Once upon" and " a time."
around a non-text block, and the story is their ordered concatenation. -/
theorem story_concatenation_witness :
    (generate_endpoint cfgW svcOk qW).2 = .ok ⟨"Once upon a time."⟩ ∧
    ∃ req resp, svcOk.createResult req = .ok resp ∧
      GenerateResp.story ⟨"Once upon a time."⟩ = storyOf resp.content :=
  ⟨by decide,
    story_concatenation.1 cfgW svcOk qW ⟨"Once upon a time."⟩ (by decide)⟩

/-- C3 counterexample: with a bucket configured and a storage stub whose
presign call raises "presign boom", the generate handler lets the exception
escape uncaught — it is not caught at the handler boundary and no
handler-assigned fault (and hence no fault message containing the text) is
produced. -/
theorem storage_error_escapes_handler :
    (generate_story cfgW svcPresignErr qW).2 = .uncaught "presign boom" ∧
    statusOf (generate_story cfgW svcPresignErr qW).2 = none := by decide

/-- C3 (amended): an exception raised by the generation call is caught and
reported as HTTP 500 with detail `"Anthropic error: " ++ message`, which
contains the original message, and no `story` is returned. -/
theorem anthropic_error_caught (cfg : Config) (svc : Services)
    (q : GenerateQuery) (b u e : String)
    (hb : cfg.bucket = some b) (hne : b.isEmpty = false)
    (hp : svc.presignResult "get_object" ⟨b, q.key, none⟩ 300 = .ok u)
    (hc : svc.createResult (anthropicReq cfg q u) = .error e) :
    (generate_story cfg svc q).2 =
      .httpError 500 ("Anthropic error: " ++ e) ∧
    ∀ r, (generate_story cfg svc q).2 ≠ .ok r := by
  have h1 : (generate_story cfg svc q).2 =
      .httpError 500 ("Anthropic error: " ++ e) := by
    unfold generate_story
    rw [hb]
    dsimp only
    rw [if_neg (by simp [hne]), hp]
    dsimp only
    rw [hc]
  exact ⟨h1, fun r hr => Outcome.noConfusion (h1.symm.trans hr)⟩

/-- Witness for the amended C3 with a generation stub raising "model boom". -/
theorem anthropic_error_caught_witness :
    svcCreateErr.createResult
      (anthropicReq cfgW qW "https://example.com/signed") =
      .error "model boom" ∧
    (generate_story cfgW svcCreateErr qW).2 =
      .httpError 500 ("Anthropic error: " ++ "model boom") :=
  ⟨rfl, (anthropic_error_caught cfgW svcCreateErr qW "pics"
    "https://example.com/signed" "model boom" rfl rfl rfl rfl).1⟩

/-- C8: for both endpoints and every input, every HTTP status code assigned
by the repository's code is 200 or 500. -/
theorem only_status_200_or_500 (cfg : Config) (svc : Services)
    (q : GenerateQuery) (req : UploadReq) (st : Nat) :
    (statusOf (generate_endpoint cfg svc q).2 = some st →
      st = 200 ∨ st = 500) ∧
    (statusOf (upload_url cfg svc req).2 = some st →
      st = 200 ∨ st = 500) :=
  ⟨generate_status_bound cfg svc q st, upload_status_bound cfg svc req st⟩

/-- Witness for C8 at status 500 (bucket unset). -/
theorem only_status_200_or_500_witness :
    statusOf (generate_endpoint cfgNoBucket svcOk qW).2 = some 500 ∧
    statusOf (upload_url cfgNoBucket svcOk reqW).2 = some 500 ∧
    (500 = 200 ∨ 500 = 500) ∧ (500 = 200 ∨ 500 = 500) :=
  ⟨by decide, by decide,
    (only_status_200_or_500 cfgNoBucket svcOk qW reqW 500).1 (by decide),
    (only_status_200_or_500 cfgNoBucket svcOk qW reqW 500).2 (by decide)⟩

/-- C9: once the pre-signed GET URL is obtained, the generate handler's trace
contains exactly one generation-service call, whose request has one user
message with exactly the two content parts (instruction text, image at the
GET URL), the caller's temperature, the constant system instruction, and the
startup `max_tokens`, whose environment parse defaults to 1200. -/
theorem single_generation_request (cfg : Config) (svc : Services)
    (q : GenerateQuery) (b u : String)
    (hb : cfg.bucket = some b) (hne : b.isEmpty = false)
    (hp : svc.presignResult "get_object" ⟨b, q.key, none⟩ 300 = .ok u)
    (_hm : MAX_TOKENS cfg.maxTokensEnv = some cfg.max_tokens) :
    (generate_story cfg svc q).1.filter isCreate =
      [.createMessage (anthropicReq cfg q u)] ∧
    (anthropicReq cfg q u).messages =
      [⟨"user", [.text (user_text q.style q.length_hint q.audience),
                 .image u]⟩] ∧
    (anthropicReq cfg q u).temperature = q.temperature ∧
    (anthropicReq cfg q u).system = system_prompt ∧
    (anthropicReq cfg q u).max_tokens = cfg.max_tokens ∧
    MAX_TOKENS none = some 1200 := by
  refine ⟨?_, rfl, rfl, rfl, rfl, MAX_TOKENS_default⟩
  unfold generate_story
  rw [hb]
  dsimp only
  rw [if_neg (by simp [hne]), hp]
  dsimp only
  cases hc : svc.createResult (anthropicReq cfg q u) <;>
    simp [isCreate, List.filter]

/-- Witness for C9 at a concrete configuration and stubs. -/
theorem single_generation_request_witness :
    MAX_TOKENS cfgW.maxTokensEnv = some cfgW.max_tokens ∧
    (generate_story cfgW svcCreateErr qW).1.filter isCreate =
      [.createMessage (anthropicReq cfgW qW "https://example.com/signed")] :=
  ⟨MAX_TOKENS_default, (single_generation_request cfgW svcCreateErr qW "pics"
    "https://example.com/signed" rfl rfl rfl MAX_TOKENS_default).1⟩

end ImageToStory
